import Mathlib

/-!
Shallow embedding of the websocket client core of the
`python-mattermost-driver` repository, covering the three variants of the
`Websocket` class found in the source:

* `src/src/mattermostdriver/websocket.py`   (the `Mmd` definitions),
* `src/src/scrapermost/driver/websocket.py` (structurally identical to `Mmd`
  for the parts embedded here: same `_authenticate_websocket` loop, same
  `connect` loop, same `_do_heartbeats`, same `_start_loop` body),
* `src/scrapermost/driver/websocket.py`     (the `Sm` definitions: the
  variant whose `_authenticate_websocket` raises on a non-matching frame and
  whose `connect` re-raises opening failures).

JSON messages are modelled by `JVal`/`Frame`; inbound traffic is a finite
list of `Option Frame`, where `none` stands for a frame on which
`receive_json` raises `TypeError`/`ValueError` (a decode failure).  Loops
that block on the network are modelled as functions of that finite list; a
computation that runs off the end of the list is still waiting for the next
frame, reported as `AuthResult.pending` (for the handshake) or as a `false`
"returned" flag (for the supervisor loop).
-/

namespace MattermostWs

/-- A JSON value, restricted to the shapes the websocket code manipulates:
strings, integers and objects. -/
inductive JVal where
  | jstr (s : String)
  | jnum (n : Int)
  | jobj (fields : List (String × JVal))

/-- A decoded JSON object frame, as returned by `receive_json`. -/
structure Frame where
  fields : List (String × JVal)

/-- Lookup of a key in a JSON object, mirroring Python `dict.get`:
`none` when the key is absent. -/
def lookupField : List (String × JVal) → String → Option JVal
  | [], _ => none
  | (k, v) :: rest, key => if k = key then some v else lookupField rest key

/-- Python `message.get(key)` on a decoded frame. -/
def Frame.get (m : Frame) (key : String) : Option JVal :=
  lookupField m.fields key

/-- Python `message.get(key) == s` for a string literal `s`:
true exactly when the key is present with that string value. -/
def optIsStr : Option JVal → String → Bool
  | some (JVal.jstr s), t => s == t
  | _, _ => false

/-- Python `message.get(key) == n` for an integer literal `n`:
true exactly when the key is present with that numeric value. -/
def optIsNum : Option JVal → Int → Bool
  | some (JVal.jnum v), t => v == t
  | _, _ => false

/-- The handshake-success test of `_authenticate_websocket`, identical in all
three variants:
`(message.get("status") == "OK" and message.get("seq") == 1) or
 (message.get("event") == "hello" and message.get("seq") == 0)`. -/
def isAuthSuccess (m : Frame) : Bool :=
  (optIsStr (m.get "status") "OK" && optIsNum (m.get "seq") 1) ||
  (optIsStr (m.get "event") "hello" && optIsNum (m.get "seq") 0)

/-- The authentication challenge frame built by `_authenticate_websocket`:
`{"seq": 1, "action": "authentication_challenge", "data": {"token": token}}`. -/
def auth_challenge (token : String) : Frame :=
  ⟨[("seq", JVal.jnum 1),
    ("action", JVal.jstr "authentication_challenge"),
    ("data", JVal.jobj [("token", JVal.jstr token)])]⟩

/-- Observable actions of one run of `_authenticate_websocket`. -/
inductive AuthEvent where
  | sent (f : Frame)               -- `websocket.send_json(...)`
  | handled (f : Frame)            -- `await event_handler(message)` ran to completion
  | decided (f : Frame) (ok : Bool) -- the success test was evaluated on `f`
  | decodeFail                     -- `receive_json` raised `TypeError`/`ValueError`

/-- Outcome of a handshake run over a finite inbound prefix. -/
inductive AuthResult where
  | success   -- the method returned normally
  | failure   -- the method raised (`RuntimeError` in the Sm variant)
  | pending   -- the loop is still waiting for a further frame
deriving DecidableEq

/-- Events contributed by one inbound item of the mattermostdriver
handshake loop: a decode failure is logged only, a decoded frame is handled
and then tested. -/
def authStep : Option Frame → List AuthEvent
  | none => [AuthEvent.decodeFail]
  | some m => [AuthEvent.handled m, AuthEvent.decided m (isAuthSuccess m)]

/-- The `while True` receive loop of `_authenticate_websocket` in
`src/src/mattermostdriver/websocket.py` (and identically in
`src/src/scrapermost/driver/websocket.py`): a decode error is logged and the
loop continues; a decoded frame is passed to the handler, then tested; on
success the method returns; otherwise "authentication failed" is logged and
the loop continues receiving. -/
def mmdAuthLoop : List (Option Frame) → List AuthEvent × AuthResult
  | [] => ([], AuthResult.pending)
  | none :: rest =>
      let r := mmdAuthLoop rest
      (AuthEvent.decodeFail :: r.1, r.2)
  | some m :: rest =>
      if isAuthSuccess m then
        ([AuthEvent.handled m, AuthEvent.decided m true], AuthResult.success)
      else
        let r := mmdAuthLoop rest
        (AuthEvent.handled m :: AuthEvent.decided m false :: r.1, r.2)

/-- Method `_authenticate_websocket` of `src/src/mattermostdriver/websocket.py`:
send the challenge, then run the receive loop. -/
def authenticate_websocket_mmd (token : String) (msgs : List (Option Frame)) :
    List AuthEvent × AuthResult :=
  (AuthEvent.sent (auth_challenge token) :: (mmdAuthLoop msgs).1,
   (mmdAuthLoop msgs).2)

/-- Method `_authenticate_websocket` of `src/scrapermost/driver/websocket.py`:
send the challenge, then `while self._alive:` — when alive, a decode error
raises `RuntimeError` (failure, handler not invoked), and a decoded frame is
passed to the handler and then either accepted (return) or rejected by
raising `RuntimeError`; every branch leaves the loop after the first frame.
When not alive the loop body never runs and the method returns normally. -/
def authenticate_websocket_sm (alive : Bool) (token : String)
    (msgs : List (Option Frame)) : List AuthEvent × AuthResult :=
  let body : List AuthEvent × AuthResult :=
    if alive then
      match msgs with
      | [] => ([], AuthResult.pending)
      | none :: _ => ([AuthEvent.decodeFail], AuthResult.failure)
      | some m :: _ =>
          ([AuthEvent.handled m, AuthEvent.decided m (isAuthSuccess m)],
           if isAuthSuccess m then AuthResult.success else AuthResult.failure)
    else ([], AuthResult.success)
  (AuthEvent.sent (auth_challenge token) :: body.1, body.2)

/-! ### Event Dispatcher loop (`_start_loop`) -/

/-- Observable actions of `_start_loop`. -/
inductive LoopEvent where
  | heartbeatTask            -- `create_task(self._do_heartbeats(...))`
  | received (m : Frame)     -- `await websocket.receive_json()` completed
  | handlerAwaited (m : Frame) -- `await event_handler(message)` ran to completion
  | decodeFail               -- `TypeError`/`ValueError` caught and logged

/-- Events contributed by one inbound item of the `_start_loop` receive
loop. -/
def loopStep : Option Frame → List LoopEvent
  | none => [LoopEvent.decodeFail]
  | some m => [LoopEvent.received m, LoopEvent.handlerAwaited m]

/-- Body of the `while self._alive:` receive loop of `_start_loop`
(`src/src/mattermostdriver/websocket.py`, identically in
`src/src/scrapermost/driver/websocket.py`): receive one frame, update
`last_msg`, then `await event_handler(message)` inline — the handler
coroutine runs to completion before the next `receive_json` is started;
a decode failure is logged and the loop continues. -/
def start_loop_body : List (Option Frame) → List LoopEvent
  | [] => []
  | none :: rest => LoopEvent.decodeFail :: start_loop_body rest
  | some m :: rest =>
      LoopEvent.received m :: LoopEvent.handlerAwaited m ::
        start_loop_body rest

/-- Method `_start_loop`: spawn the heartbeat task (the only `create_task` in the
function), then run the receive loop over the inbound prefix. -/
def start_loop (msgs : List (Option Frame)) : List LoopEvent :=
  LoopEvent.heartbeatTask :: start_loop_body msgs

/-! ### Heartbeat Monitor (`_do_heartbeats`) -/

/-- The sleep duration computed by one iteration of `_do_heartbeats`:
`since_last_msg = time() - self.last_msg`; `next_timeout = self.timeout`;
`if since_last_msg <= self.timeout: next_timeout -= since_last_msg`;
`await sleep(next_timeout)`.  Time is modelled in integer ticks. -/
def do_heartbeats_sleep (timeout last_msg now : Int) : Int :=
  let since_last_msg := now - last_msg
  if since_last_msg ≤ timeout then timeout - since_last_msg else timeout

/-- One full iteration of `_do_heartbeats` under the assumption that no
message arrives while sleeping (`last_msg` is not updated concurrently):
sleep, then `if time() - self._last_msg >= self.timeout:` send `pong()` and
set `last_msg` to the current time.  Returns
(wake-up time, probe sent, `last_msg` after the iteration). -/
def do_heartbeats_iter (timeout last_msg now : Int) : Int × Bool × Int :=
  let wake := now + do_heartbeats_sleep timeout last_msg now
  if timeout ≤ wake - last_msg then (wake, true, wake)
  else (wake, false, last_msg)

/-! ### Connection Supervisor (`connect`, mattermostdriver variant) -/

/-- The outcome of one iteration of the outer `while True:` loop of
`connect` in `src/src/mattermostdriver/websocket.py` (identically in
`src/src/scrapermost/driver/websocket.py`), as seen from the loop:
either the `try` body raised (opening the transport failed — DNS, TLS,
upgrade rejection — or any other exception escaped the session), or a
session ran and ended with the recorded value of `self._alive` (a
concurrent `disconnect()` may have cleared it).  `openFailed` also records
the value of `_alive` afterwards, showing whether `disconnect()` was called
meanwhile. -/
inductive OuterOutcome where
  | openFailed (aliveAfter : Bool)
  | sessionEnded (aliveAfter : Bool)

/-- Observable actions of the supervisor loop. -/
inductive ConnEvent where
  | openAttempt   -- `session.ws_connect` was attempted
  | sleptRetry    -- `await sleep(self._keepalive_delay)` in the `except` path
  | ranSession    -- authentication and the inner event loop ran

/-- The outer `while True:` loop of `connect`
(`src/src/mattermostdriver/websocket.py` lines 284-308): on an exception the
handler logs and sleeps `keepalive_delay`, then the loop continues —
without consulting `self._keepalive` or `self._alive`; after a session ends,
`if not all([self._keepalive, self._alive]): break`.  The Boolean result is
`true` when the loop exited (the method returns) and `false` when the
finite outcome script was exhausted with the loop still running. -/
def connectLoop (keepalive : Bool) : Bool → List OuterOutcome → List ConnEvent × Bool
  | _, [] => ([], false)
  | _, OuterOutcome.openFailed a :: rest =>
      let r := connectLoop keepalive a rest
      (ConnEvent.openAttempt :: ConnEvent.sleptRetry :: r.1, r.2)
  | _, OuterOutcome.sessionEnded a :: rest =>
      if keepalive && a then
        let r := connectLoop keepalive a rest
        (ConnEvent.openAttempt :: ConnEvent.ranSession :: r.1, r.2)
      else ([ConnEvent.openAttempt, ConnEvent.ranSession], true)

/-- Method `connect` of `src/src/mattermostdriver/websocket.py`: `self._alive =
True`, then the outer loop. -/
def connect_mmd (keepalive : Bool) (outcomes : List OuterOutcome) :
    List ConnEvent × Bool :=
  connectLoop keepalive true outcomes

/-! ### `connect` (scrapermost variant) and `disconnect` -/

/-- The ways `aiohttp.ClientSession.ws_connect` can fail in the `try` of
`connect` in `src/scrapermost/driver/websocket.py`, or succeed. -/
inductive WsConnectResult where
  | ok
  | clientConnectorError
  | timeoutError
  | wsServerHandshakeError
deriving DecidableEq

/-- State established by a successful `connect` in
`src/scrapermost/driver/websocket.py`. -/
structure SmConnState where
  alive : Bool
  sessionOpen : Bool
  websocketSet : Bool

/-- The `RuntimeError` raised by `connect` in
`src/scrapermost/driver/websocket.py`: it records the caught cause and that
the client session was closed before raising. -/
structure ConnectRaise where
  cause : WsConnectResult
  sessionClosed : Bool

/-- Method `connect` of `src/scrapermost/driver/websocket.py` (lines 255-285):
create a client session; on a successful `ws_connect` set the websocket and
`self._alive = True`; on `ClientConnectorError`/`TimeoutError`/
`WSServerHandshakeError` close the session and raise `RuntimeError` — the
failure propagates out of the public entry point. -/
def connect_sm (r : WsConnectResult) : Except ConnectRaise SmConnState :=
  match r with
  | WsConnectResult.ok =>
      Except.ok { alive := true, sessionOpen := true, websocketSet := true }
  | e => Except.error { cause := e, sessionClosed := true }

/-- State touched by `disconnect` in `src/src/mattermostdriver/websocket.py`. -/
structure MmdWsState where
  alive : Bool

/-- Method `disconnect` of `src/src/mattermostdriver/websocket.py` (lines 310-318):
log and set `self._alive = False`. -/
def disconnect_mmd (s : MmdWsState) : MmdWsState :=
  { s with alive := false }

/-- State touched by `disconnect` in `src/scrapermost/driver/websocket.py`:
the alive flag, and whether the websocket and the client session exist and
are not closed. -/
structure SmWsState where
  alive : Bool
  websocketOpen : Bool
  sessionOpen : Bool

/-- Method `disconnect` of `src/scrapermost/driver/websocket.py` (lines 287-306):
`if self.is_connected():` clear `_alive`, close the websocket if present and
open, close the session if present and open; otherwise do nothing. -/
def disconnect_sm (s : SmWsState) : SmWsState :=
  if s.alive then
    { alive := false, websocketOpen := false, sessionOpen := false }
  else s

/-! ### `Websocket.__init__` (mattermostdriver variant), SSL handling -/

/-- An `ssl.SSLContext` as far as this code observes it: whether
`verify_mode` was set to `CERT_NONE`. -/
structure SSLCtx where
  certNone : Bool

/-- The transport parameters assembled by `Websocket.__init__` in
`src/src/mattermostdriver/websocket.py` and passed to `ws_connect`. -/
structure WsKwArgs where
  proxy : Option String
  ssl : Option SSLCtx

/-- The SSL-context block of `Websocket.__init__` in
`src/src/mattermostdriver/websocket.py` (lines 65-75): `ssl_context` is
initialised to `None`; for scheme `"https"` a default context is created
but its result is discarded (the call's value is not bound), so when
`verify` is false the statement `ssl_context.verify_mode = CERT_NONE`
raises `AttributeError` on `None`; otherwise the kwargs carry
`ssl=ssl_context`, which is still `None`. -/
def websocket_init_mmd (scheme : String) (verify : Bool)
    (proxy : Option String) : Except String WsKwArgs :=
  let ssl_context : Option SSLCtx := none
  if scheme = "https" then
    if !verify then
      Except.error "AttributeError: NoneType object has no attribute verify_mode"
    else
      Except.ok { proxy := proxy, ssl := ssl_context }
  else
    Except.ok { proxy := proxy, ssl := ssl_context }

/-! ### Concrete frames and small auxiliary definitions -/

/-- Direct acknowledgement of the challenge, success variant A. -/
def okSeqFrame : Frame := ⟨[("status", JVal.jstr "OK"), ("seq", JVal.jnum 1)]⟩

/-- An acknowledgement carrying `seq_reply` instead of `seq`. -/
def seqReplyFrame : Frame :=
  ⟨[("status", JVal.jstr "OK"), ("seq_reply", JVal.jnum 1)]⟩

/-- The hello/ready event, success variant B. -/
def helloFrame : Frame := ⟨[("event", JVal.jstr "hello"), ("seq", JVal.jnum 0)]⟩

/-- An explicit rejection frame. -/
def failFrame : Frame := ⟨[("status", JVal.jstr "FAIL")]⟩

/-- A domain event frame. -/
def postedFrame : Frame := ⟨[("event", JVal.jstr "posted"), ("seq", JVal.jnum 2)]⟩

/-- Another domain event frame. -/
def typingFrame : Frame := ⟨[("event", JVal.jstr "typing"), ("seq", JVal.jnum 3)]⟩

/-- Whether an `AuthEvent` is a send on the websocket. -/
def isSentEvent : AuthEvent → Bool
  | AuthEvent.sent _ => true
  | _ => false

/-- Trace of n failing open attempts of the supervisor loop: each attempt is
followed by the keepalive-delay sleep of the `except` path. -/
def retryTrace : Nat → List ConnEvent
  | 0 => []
  | n + 1 => ConnEvent.openAttempt :: ConnEvent.sleptRetry :: retryTrace n

/-! ## Helper lemmas -/

/-- Python `o == s` (string) is true exactly when `o` is that string. -/
theorem optIsStr_eq_true (o : Option JVal) (s : String) :
    optIsStr o s = true ↔ o = some (JVal.jstr s) := by
  cases o with
  | none => simp [optIsStr]
  | some v => cases v <;> simp [optIsStr]

/-- Python `o == n` (number) is true exactly when `o` is that number. -/
theorem optIsNum_eq_true (o : Option JVal) (n : Int) :
    optIsNum o n = true ↔ o = some (JVal.jnum n) := by
  cases o with
  | none => simp [optIsNum]
  | some v => cases v <;> simp [optIsNum]

/-- Characterisation of the success test of `_authenticate_websocket`. -/
theorem isAuthSuccess_eq_true (m : Frame) :
    isAuthSuccess m = true ↔
      ((m.get "status" = some (JVal.jstr "OK") ∧
        m.get "seq" = some (JVal.jnum 1)) ∨
       (m.get "event" = some (JVal.jstr "hello") ∧
        m.get "seq" = some (JVal.jnum 0))) := by
  simp [isAuthSuccess, Bool.or_eq_true, Bool.and_eq_true,
    optIsStr_eq_true, optIsNum_eq_true]

/-- The mattermostdriver handshake loop never produces a failure outcome:
a non-matching frame is only logged and the loop keeps receiving. -/
theorem mmdAuthLoop_ne_failure (msgs : List (Option Frame)) :
    (mmdAuthLoop msgs).2 ≠ AuthResult.failure := by
  induction msgs with
  | nil => simp [mmdAuthLoop]
  | cons x rest ih =>
      cases x with
      | none => simpa [mmdAuthLoop] using ih
      | some m =>
          by_cases h : isAuthSuccess m = true
          · simp [mmdAuthLoop, h]
          · simpa [mmdAuthLoop, h] using ih

/-- The trace of the mattermostdriver handshake loop is the concatenation of
the per-frame blocks `authStep` over a consumed prefix of the input. -/
theorem mmdAuthLoop_shape (msgs : List (Option Frame)) :
    ∃ pre rest, msgs = pre ++ rest ∧
      (mmdAuthLoop msgs).1 = pre.flatMap authStep := by
  induction msgs with
  | nil => exact ⟨[], [], rfl, rfl⟩
  | cons x rest ih =>
      cases x with
      | none =>
          obtain ⟨p, r, hpr, ht⟩ := ih
          exact ⟨none :: p, r, by rw [hpr, List.cons_append],
            by simp [mmdAuthLoop, authStep, ht]⟩
      | some m =>
          by_cases h : isAuthSuccess m = true
          · exact ⟨[some m], rest, rfl, by simp [mmdAuthLoop, authStep, h]⟩
          · obtain ⟨p, r, hpr, ht⟩ := ih
            refine ⟨some m :: p, r, by rw [hpr, List.cons_append], ?_⟩
            simp [mmdAuthLoop, authStep, h, ht]

/-- The handshake receive loop never sends anything on the websocket. -/
theorem mmdAuthLoop_no_sent (msgs : List (Option Frame)) :
    ∀ e ∈ (mmdAuthLoop msgs).1, isSentEvent e = false := by
  induction msgs with
  | nil => simp [mmdAuthLoop]
  | cons x rest ih =>
      cases x with
      | none =>
          intro e he
          rw [mmdAuthLoop] at he
          rcases List.mem_cons.mp he with h | h
          · rw [h]; rfl
          · exact ih e h
      | some m =>
          intro e he
          by_cases h : isAuthSuccess m = true
          · rw [mmdAuthLoop, if_pos h] at he
            rcases List.mem_cons.mp he with h1 | h1
            · rw [h1]; rfl
            · rcases List.mem_cons.mp h1 with h2 | h2
              · rw [h2]; rfl
              · simp at h2
          · rw [mmdAuthLoop, if_neg h] at he
            rcases List.mem_cons.mp he with h1 | h1
            · rw [h1]; rfl
            · rcases List.mem_cons.mp h1 with h2 | h2
              · rw [h2]; rfl
              · exact ih e h2

/-- The receive loop of `_start_loop` processes inbound items one at a time,
contributing the `loopStep` block of each. -/
theorem start_loop_body_eq_flatMap (msgs : List (Option Frame)) :
    start_loop_body msgs = msgs.flatMap loopStep := by
  induction msgs with
  | nil => rfl
  | cons x rest ih => cases x <;> simp [start_loop_body, loopStep, ih]

/-- On a script of failing open attempts, the supervisor loop of the
mattermostdriver `connect` sleeps and retries forever: the `except` path
never consults `_keepalive` or `_alive`. -/
theorem connectLoop_all_open_failed (keepalive alive : Bool)
    (outcomes : List OuterOutcome)
    (h : ∀ o ∈ outcomes, ∃ a, o = OuterOutcome.openFailed a) :
    connectLoop keepalive alive outcomes =
      (retryTrace outcomes.length, false) := by
  induction outcomes generalizing alive with
  | nil => rfl
  | cons o rest ih =>
      obtain ⟨a, rfl⟩ := h o (List.mem_cons_self o rest)
      have hrest := ih a (fun o ho => h o (List.mem_cons_of_mem _ ho))
      simp [connectLoop, retryTrace, hrest]

/-! ## Claim theorems -/

/-- C1, counterexample: the claim asserts that a frame with status `"OK"`
and `seq_reply = 1` (no `seq`) is accepted as handshake success; in the
source the success test consults only `seq`, so this frame is rejected —
the scrapermost variant raises (failure) and the mattermostdriver variant
keeps waiting for further frames. -/
theorem c1_seq_reply_frame_rejected :
    isAuthSuccess seqReplyFrame = false ∧
    (authenticate_websocket_sm true "token" [some seqReplyFrame]).2 =
      AuthResult.failure ∧
    (authenticate_websocket_mmd "token" [some seqReplyFrame]).2 =
      AuthResult.pending :=
  ⟨rfl, rfl, rfl⟩

/-- C1, amended: `authenticate` declares success on a frame exactly when it
has status `"OK"` and `seq = 1`, or event `"hello"` and `seq = 0`; the
field `seq_reply` is never consulted, so a frame with `seq_reply = 1` and
no `seq` is rejected. -/
theorem c1_auth_success_iff (token : String) (m : Frame)
    (msgs : List (Option Frame)) :
    (authenticate_websocket_sm true token (some m :: msgs)).2 =
        AuthResult.success ↔
      ((m.get "status" = some (JVal.jstr "OK") ∧
        m.get "seq" = some (JVal.jnum 1)) ∨
       (m.get "event" = some (JVal.jstr "hello") ∧
        m.get "seq" = some (JVal.jnum 0))) := by
  rw [← isAuthSuccess_eq_true]
  show (if isAuthSuccess m then AuthResult.success else AuthResult.failure) =
      AuthResult.success ↔ isAuthSuccess m = true
  cases h : isAuthSuccess m <;> simp [h]

/-- C2, counterexample: the claim asserts that on a non-matching frame
`authenticate` returns failure after inspecting a bounded number of frames;
in the mattermostdriver variant a non-matching frame is only logged and the
loop silently keeps receiving — after two explicit rejection frames the
handshake is still waiting, and no failure was declared. -/
theorem c2_mmd_auth_never_fails_concrete :
    isAuthSuccess failFrame = false ∧
    (authenticate_websocket_mmd "token"
        [some failFrame, some failFrame]).2 = AuthResult.pending :=
  ⟨rfl, rfl⟩

/-- C2, amended: in the scrapermost variant, `authenticate` declares
failure after inspecting exactly one frame — a non-matching frame is first
passed to the handler and then rejected, and an undecodable frame is
rejected directly; in the mattermostdriver variant, `authenticate` never
declares failure at all: non-matching and undecodable frames are logged and
the loop keeps receiving silently. -/
theorem c2_auth_failure_amended :
    (∀ token m msgs, isAuthSuccess m = false →
        authenticate_websocket_sm true token (some m :: msgs) =
          ([AuthEvent.sent (auth_challenge token), AuthEvent.handled m,
            AuthEvent.decided m false], AuthResult.failure)) ∧
    (∀ token msgs,
        authenticate_websocket_sm true token (none :: msgs) =
          ([AuthEvent.sent (auth_challenge token), AuthEvent.decodeFail],
           AuthResult.failure)) ∧
    (∀ token msgs,
        (authenticate_websocket_mmd token msgs).2 ≠ AuthResult.failure) := by
  refine ⟨fun token m msgs h => ?_, fun token msgs => rfl,
    fun token msgs => ?_⟩
  · simp [authenticate_websocket_sm, h]
  · exact mmdAuthLoop_ne_failure msgs

/-- C2, witness: the amended failure behaviour at a concrete rejection
frame. -/
theorem c2_auth_failure_amended_witness :
    authenticate_websocket_sm true "token" [some failFrame] =
      ([AuthEvent.sent (auth_challenge "token"), AuthEvent.handled failFrame,
        AuthEvent.decided failFrame false], AuthResult.failure) :=
  c2_auth_failure_amended.1 "token" failFrame [] rfl

/-- C3, counterexample: the claim asserts that with the stay-connected flag
false, `connect` performs exactly one attempt and returns when opening
always fails; in the source, an opening failure is caught by the `except`
path, which sleeps the retry delay and loops again without consulting
`_keepalive` or `_alive` — here with keepalive false (and `disconnect()`
already having cleared the alive flag) a second attempt is still made and
the method has not returned. -/
theorem c3_connect_retries_with_keepalive_false :
    connect_mmd false
        [OuterOutcome.openFailed false, OuterOutcome.openFailed false] =
      ([ConnEvent.openAttempt, ConnEvent.sleptRetry,
        ConnEvent.openAttempt, ConnEvent.sleptRetry], false) :=
  rfl

/-- C3, amended: when opening the transport fails on every attempt, the
mattermostdriver `connect` sleeps the keepalive-retry delay and re-attempts
indefinitely, for both values of the stay-connected flag and regardless of
`disconnect()` — the stay-connected/alive check is only reached after a
successfully opened session. -/
theorem c3_connect_open_fail_amended (keepalive : Bool)
    (outcomes : List OuterOutcome)
    (h : ∀ o ∈ outcomes, ∃ a, o = OuterOutcome.openFailed a) :
    connect_mmd keepalive outcomes = (retryTrace outcomes.length, false) :=
  connectLoop_all_open_failed keepalive true outcomes h

/-- C3, witness: the amended behaviour on one failing attempt with
keepalive disabled. -/
theorem c3_connect_open_fail_amended_witness :
    connect_mmd false [OuterOutcome.openFailed true] = (retryTrace 1, false) :=
  c3_connect_open_fail_amended false [OuterOutcome.openFailed true]
    (fun _o ho => ⟨true, List.mem_singleton.mp ho⟩)

/-- C4, counterexample: the claim asserts that no transport-open failure
escapes the public `connect` entry point; the scrapermost `connect`
catches `ClientConnectorError` and re-raises it as a `RuntimeError` to the
caller, so the failure does escape `connect` as an exception rather than
being converted into a retry-or-terminate decision. -/
theorem c4_connect_raises_on_open_failure :
    connect_sm WsConnectResult.clientConnectorError =
      Except.error { cause := WsConnectResult.clientConnectorError,
                     sessionClosed := true } :=
  rfl

/-- C4, amended: in the scrapermost variant, every transport-open failure
(DNS resolution, timeout, HTTP upgrade rejection) is caught inside
`connect`, the client session is closed, and a `RuntimeError` is raised to
the caller — the failure propagates out of the public entry point instead
of being folded into a retry decision; only a successful open sets the
alive flag. -/
theorem c4_connect_open_failure_amended (r : WsConnectResult)
    (h : r ≠ WsConnectResult.ok) :
    connect_sm r = Except.error { cause := r, sessionClosed := true } := by
  cases r with
  | ok => exact absurd rfl h
  | clientConnectorError => rfl
  | timeoutError => rfl
  | wsServerHandshakeError => rfl

/-- C4, witness: the amended behaviour at a concrete open failure. -/
theorem c4_connect_open_failure_amended_witness :
    connect_sm WsConnectResult.timeoutError =
      Except.error { cause := WsConnectResult.timeoutError,
                     sessionClosed := true } :=
  c4_connect_open_failure_amended WsConnectResult.timeoutError (by decide)

/-- C5, counterexample: the claim asserts that when the elapsed time since
the last message already exceeds the idle timeout, the probe is sent
immediately, without sleeping first; in the source, the computed sleep in
that case is the full idle timeout (here 10 ticks with the last message 25
ticks ago), not zero. -/
theorem c5_overdue_sleeps_full_timeout :
    do_heartbeats_sleep 10 0 25 = 10 ∧ (10 : Int) ≠ 0 := by
  exact ⟨rfl, by decide⟩

/-- C5, amended: on each iteration of the heartbeat monitor, if the elapsed
time since `last_msg` is at most the idle timeout, the monitor sleeps
exactly the remaining time of the window; if the timeout has already been
exceeded it sleeps a full idle-timeout duration first (it does not probe
immediately); in either case, when no message arrives during the sleep it
sends exactly one probe at wake-up and resets `last_msg` to the wake-up
time. -/
theorem c5_heartbeat_amended (timeout last_msg now : Int) (h : 0 ≤ timeout) :
    (now - last_msg ≤ timeout →
        do_heartbeats_sleep timeout last_msg now =
          timeout - (now - last_msg)) ∧
    (timeout < now - last_msg →
        do_heartbeats_sleep timeout last_msg now = timeout) ∧
    do_heartbeats_iter timeout last_msg now =
      (now + do_heartbeats_sleep timeout last_msg now, true,
       now + do_heartbeats_sleep timeout last_msg now) := by
  refine ⟨fun hle => by simp [do_heartbeats_sleep, hle],
    fun hlt => by simp [do_heartbeats_sleep, not_le.mpr hlt], ?_⟩
  unfold do_heartbeats_iter do_heartbeats_sleep
  by_cases hle : now - last_msg ≤ timeout
  · rw [if_pos hle, if_pos (by omega)]
  · rw [if_neg hle, if_pos (by omega)]

/-- C5, witness: the amended heartbeat behaviour with timeout 10, the last
message at tick 0 and the current time at tick 3. -/
theorem c5_heartbeat_amended_witness :
    (((3 : Int) - 0 ≤ 10 →
        do_heartbeats_sleep 10 0 3 = 10 - (3 - 0)) ∧
     ((10 : Int) < 3 - 0 → do_heartbeats_sleep 10 0 3 = 10) ∧
     do_heartbeats_iter 10 0 3 =
       (3 + do_heartbeats_sleep 10 0 3, true, 3 + do_heartbeats_sleep 10 0 3)) :=
  c5_heartbeat_amended 10 0 3 (by decide)

/-- C6, confirmed: during the handshake every decoded frame is forwarded to
the caller's handler exactly once, strictly before the success/failure test
on that same frame — the trace of the mattermostdriver receive loop is the
concatenation of per-frame blocks `[handled m, decided m _]` over the
consumed prefix, and the scrapermost variant likewise handles its first
frame before deciding on it. -/
theorem c6_forward_before_decide (token : String)
    (msgs : List (Option Frame)) :
    (∃ pre rest, msgs = pre ++ rest ∧
        (authenticate_websocket_mmd token msgs).1 =
          AuthEvent.sent (auth_challenge token) :: pre.flatMap authStep) ∧
    (∀ m, authStep (some m) =
        [AuthEvent.handled m, AuthEvent.decided m (isAuthSuccess m)]) ∧
    (∀ m rest2, (authenticate_websocket_sm true token (some m :: rest2)).1 =
        [AuthEvent.sent (auth_challenge token), AuthEvent.handled m,
         AuthEvent.decided m (isAuthSuccess m)]) := by
  refine ⟨?_, fun m => rfl, fun m rest2 => rfl⟩
  obtain ⟨pre, rest, hpr, ht⟩ := mmdAuthLoop_shape msgs
  exact ⟨pre, rest, hpr, by rw [authenticate_websocket_mmd, ht]⟩

/-- C7, confirmed: `disconnect` is idempotent in both variants — calling it
`n + 1` times leaves the same state as calling it once, and the alive flag
is false after the first call and stays false. -/
theorem c7_disconnect_idempotent (n : Nat) (s : MmdWsState) (t : SmWsState) :
    Nat.iterate disconnect_mmd (n + 1) s = disconnect_mmd s ∧
    Nat.iterate disconnect_sm (n + 1) t = disconnect_sm t ∧
    (disconnect_mmd s).alive = false ∧ (disconnect_sm t).alive = false := by
  have hmmd : disconnect_mmd (disconnect_mmd s) = disconnect_mmd s := rfl
  have hsm : disconnect_sm (disconnect_sm t) = disconnect_sm t := by
    by_cases ht : t.alive <;> simp [disconnect_sm, ht]
  refine ⟨?_, ?_, rfl, ?_⟩
  · rw [Function.iterate_succ_apply]
    exact Function.iterate_fixed hmmd n
  · rw [Function.iterate_succ_apply]
    exact Function.iterate_fixed hsm n
  · by_cases ht : t.alive <;> simp [disconnect_sm, ht]

/-- C8, confirmed: the first frame sent on a new session by the handshake
is exactly `{"seq": 1, "action": "authentication_challenge", "data":
{"token": token}}`, and nothing else is sent before it — in both variants
the trace starts with that send and contains no other send event. -/
theorem c8_first_sent_is_auth_challenge (token : String) (alive : Bool)
    (msgs : List (Option Frame)) :
    auth_challenge token =
      ⟨[("seq", JVal.jnum 1),
        ("action", JVal.jstr "authentication_challenge"),
        ("data", JVal.jobj [("token", JVal.jstr token)])]⟩ ∧
    (authenticate_websocket_mmd token msgs).1.head? =
      some (AuthEvent.sent (auth_challenge token)) ∧
    (∀ e ∈ (authenticate_websocket_mmd token msgs).1.tail,
        isSentEvent e = false) ∧
    (authenticate_websocket_sm alive token msgs).1.head? =
      some (AuthEvent.sent (auth_challenge token)) ∧
    (∀ e ∈ (authenticate_websocket_sm alive token msgs).1.tail,
        isSentEvent e = false) := by
  refine ⟨rfl, rfl, ?_, rfl, ?_⟩
  · exact mmdAuthLoop_no_sent msgs
  · cases alive with
    | false => simp [authenticate_websocket_sm]
    | true =>
        cases msgs with
        | nil => simp [authenticate_websocket_sm]
        | cons x rest =>
            cases x with
            | none =>
                intro e he
                simp [authenticate_websocket_sm] at he
                rw [he]; rfl
            | some m =>
                intro e he
                simp [authenticate_websocket_sm] at he
                rcases he with h | h <;> rw [h] <;> rfl

/-- C9, counterexample: the claim asserts that the handler is dispatched as
an independent concurrent task and the receive loop does not wait for it;
in the source the handler coroutine is awaited inline, so in the trace for
two inbound frames the handler of the first frame runs to completion
before the second frame is received. -/
theorem c9_handler_awaited_before_next_receive :
    start_loop [some postedFrame, some typingFrame] =
      [LoopEvent.heartbeatTask, LoopEvent.received postedFrame,
       LoopEvent.handlerAwaited postedFrame, LoopEvent.received typingFrame,
       LoopEvent.handlerAwaited typingFrame] :=
  rfl

/-- C9, amended: the only task spawned by `_start_loop` is the heartbeat
task; the caller's handler is awaited inline in the receive loop, so each
frame's handler runs to completion before the next frame is received (a
slow handler does stall delivery of subsequent events). -/
theorem c9_start_loop_amended (msgs : List (Option Frame)) :
    start_loop msgs = LoopEvent.heartbeatTask :: msgs.flatMap loopStep ∧
    (∀ m, loopStep (some m) =
        [LoopEvent.received m, LoopEvent.handlerAwaited m]) := by
  exact ⟨by rw [start_loop, start_loop_body_eq_flatMap], fun m => rfl⟩

/-- C10, confirmed: in the mattermostdriver `Websocket.__init__`, the SSL
context created for the `"https"` scheme is discarded and the local
variable stays `None`: with `verify = False` the constructor raises an
`AttributeError` on `None` instead of returning an instance, and with
`verify = True` the transport parameters carry `ssl = None` — the
TLS-verification toggle never reaches the transport session. -/
theorem c10_mmd_ssl_context_discarded (verify : Bool) (proxy : Option String) :
    websocket_init_mmd "https" verify proxy =
      (if verify then Except.ok { proxy := proxy, ssl := none }
       else Except.error
         "AttributeError: NoneType object has no attribute verify_mode") := by
  cases verify <;> rfl

end MattermostWs
